import Mathlib

/-!
Verification development for the nissan-chatbot repository.

The frontend chat client (`frontend/components/ChatInterface.tsx`,
`frontend/lib/api.ts`, `frontend/components/CallbackForm.tsx`,
`frontend/components/VoiceInterface.tsx`) is embedded shallowly below:
React state becomes an explicit state record, the impure clock becomes a
`now : Nat` parameter (the source reads `Date.now()` for the user message id
and `Date.now() + 1` for the assistant message id), `fetch` outcomes become an
explicit outcome datatype, and the server-sent-event byte stream is modelled
at the granularity of its lines.  `JSON.parse` is kept abstract as a
parameter `parse : String → Option ChatEvent`; a failed parse is `none`
(the source catches the exception and skips the line).

The backend session/run orchestrator (FastAPI `backend/api.py`) is not part
of the provided sources, so the Run Gate is modelled from the spec where
noted.
-/

namespace NissanChatbot

/-- Message role as in the frontend `Message` interface. -/
inductive Role where
  | user
  | assistant
deriving DecidableEq, Repr

/-- Frontend `Message` record: `id`, `role`, `content`, `timestamp`.
`id` is `Date.now().toString()` in the source; the clock is a parameter. -/
structure Message where
  id : String
  role : Role
  content : String
  timestamp : Nat
deriving DecidableEq, Repr

/-- Shape of a parsed streaming event, the fields the client reads from
`JSON.parse(data)`: an optional `text` delta and an optional `session_id`. -/
structure ChatEvent where
  text : Option String
  session_id : Option String
deriving DecidableEq, Repr

/-- JavaScript truthiness of a nullable string: `null`/`undefined` and the
empty string are falsy. -/
def jsTruthy : Option String → Bool
  | none => false
  | some s => s != ""

/-- React state of `ChatInterface` (the fields `sendMessage` touches):
`messages`, `input`, `isLoading`, `streamingContent`, the `streamingRef`
mutable ref, and `sessionId`. -/
structure ChatState where
  messages : List Message
  input : String
  isLoading : Bool
  streamingContent : String
  streamingRef : String
  sessionId : Option String
deriving DecidableEq, Repr

/-- Body of a POST to `/chat/stream` (or `/chat`): `message` and
`session_id`. -/
structure ChatRequest where
  message : String
  session_id : Option String
deriving DecidableEq, Repr

/-- Outcome of the `fetch` in `sendMessage`: the fetch itself throwing,
`!response.ok`, `!response.body`, or a body delivering `lines` of the event
stream, with `failsAfter` true when `reader.read()` throws after those
lines. -/
inductive FetchResult where
  | fetchError
  | notOk
  | noBody
  | body (lines : List String) (failsAfter : Bool)
deriving DecidableEq, Repr

/-- Whitespace as matched by the JavaScript regexp class `\s` (the
single-code-unit characters: ASCII whitespace, NBSP, BOM and the Unicode
space separators). -/
def isJsSpace (c : Char) : Bool :=
  c = ' ' || c = '\t' || c = '\n' || c = '\x0b' || c = '\x0c' || c = '\r' ||
  c = '\u00a0' || c = '\u1680' || ('\u2000' ≤ c && c ≤ '\u200a') ||
  c = '\u2028' || c = '\u2029' || c = '\u202f' || c = '\u205f' ||
  c = '\u3000' || c = '\ufeff'

/-- JavaScript `String.prototype.trim`: strip leading and trailing
whitespace.  Modelled over the character list so that it evaluates by
kernel reduction. -/
def jsTrim (s : String) : String :=
  String.mk (((s.data.dropWhile isJsSpace).reverse.dropWhile isJsSpace).reverse)

/-- JavaScript `String.prototype.startsWith`. -/
def jsStartsWith (s pre : String) : Bool :=
  pre.data.isPrefixOf s.data

/-- JavaScript `String.prototype.slice(n)` for a non-negative `n`: drop the
first `n` code units. -/
def jsDrop (s : String) (n : Nat) : String :=
  String.mk (s.data.drop n)

/-- One iteration of the line loop in `ChatInterface.sendMessage`
(lines 97-117 of the component): a `data: ` line is stripped and trimmed,
`[DONE]` is skipped, a parsed event appends a truthy `text` to the streaming
buffer and records a truthy `session_id` if none is recorded yet. -/
def procLine (parse : String → Option ChatEvent) (acc : String × Option String)
    (line : String) : String × Option String :=
  if jsStartsWith line "data: " then
    let data := jsTrim (jsDrop line 6)
    if data = "[DONE]" then acc
    else
      match parse data with
      | none => acc
      | some ev =>
        let buf := if jsTruthy ev.text then acc.1 ++ ev.text.getD "" else acc.1
        let sid := if jsTruthy ev.session_id && !(jsTruthy acc.2) then ev.session_id else acc.2
        (buf, sid)
  else acc

/-- The error-fallback assistant message content appended in the `catch`
block of `sendMessage`. -/
def errorContent : String := "I\x27m sorry, I encountered an error. Please try again."

/-- The `catch`/`finally` tail of `sendMessage`: append the fallback
assistant message, clear the streaming buffer, reset the loading flag. -/
def errorFinalize (st : ChatState) (now : Nat) : ChatState :=
  { st with
      messages := st.messages ++ [⟨toString (now + 1), Role.assistant, errorContent, now + 1⟩],
      streamingRef := "", streamingContent := "", isLoading := false }

/-- `ChatInterface.sendMessage`, shallowly embedded.  Returns the new state
and the request sent to `/chat/stream` (`none` when the guard returns before
fetching).  The guard is the early return of the source on an untrimmable
message or a turn already in flight. -/
def sendMessage (parse : String → Option ChatEvent) (st : ChatState)
    (messageText : String) (now : Nat) (res : FetchResult) :
    ChatState × Option ChatRequest :=
  if jsTrim messageText = "" ∨ st.isLoading = true then (st, none)
  else
    let userMessage : Message := ⟨toString now, Role.user, jsTrim messageText, now⟩
    let st1 : ChatState :=
      { st with
          messages := st.messages ++ [userMessage], input := "", isLoading := true,
          streamingRef := "", streamingContent := "" }
    let req : ChatRequest := ⟨jsTrim messageText, st.sessionId⟩
    match res with
    | FetchResult.fetchError => (errorFinalize st1 now, some req)
    | FetchResult.notOk => (errorFinalize st1 now, some req)
    | FetchResult.noBody => (errorFinalize st1 now, some req)
    | FetchResult.body lines failsAfter =>
      let acc := lines.foldl (procLine parse) ("", st1.sessionId)
      let st2 : ChatState :=
        { st1 with streamingRef := acc.1, streamingContent := acc.1, sessionId := acc.2 }
      if failsAfter then (errorFinalize st2 now, some req)
      else
        let assistantMessage : Message := ⟨toString (now + 1), Role.assistant, acc.1, now + 1⟩
        ({ st2 with
            messages := st2.messages ++ [assistantMessage],
            streamingRef := "", streamingContent := "", isLoading := false }, some req)

/-- A whole conversation: fold `sendMessage` over a list of turns, each a
message text, a clock reading and a fetch outcome; collects the requests
actually issued. -/
def runTurns (parse : String → Option ChatEvent) (st : ChatState) :
    List (String × Nat × FetchResult) → ChatState × List ChatRequest
  | [] => (st, [])
  | (msg, now, res) :: rest =>
    let step := sendMessage parse st msg now res
    let tail := runTurns parse step.1 rest
    (tail.1, step.2.toList ++ tail.2)

/-- The delta events of a line sequence: events parsed from `data: ` lines
other than the `[DONE]` sentinel (which `sendMessage` skips with
`continue`). -/
def parsedDeltaEvents (parse : String → Option ChatEvent) (lines : List String) :
    List ChatEvent :=
  lines.filterMap (fun line =>
    if jsStartsWith line "data: " then
      let data := jsTrim (jsDrop line 6)
      if data = "[DONE]" then none else parse data
    else none)

/-- Concatenation, in arrival order, of the `text` fields of a list of
events (an absent `text` contributes the empty string). -/
def concatTexts (evs : List ChatEvent) : String :=
  evs.foldr (fun e acc => e.text.getD "" ++ acc) ""

/-- First truthy (non-empty) `session_id` carried by the delta events. -/
def firstTruthySid (parse : String → Option ChatEvent) (lines : List String) :
    Option String :=
  ((parsedDeltaEvents parse lines).filterMap
    (fun e => match e.session_id with
      | some s => if s = "" then none else some s
      | none => none)).head?

/-- First `session_id` value carried by any delta event, empty or not.
This follows the wording of the spec claim, for comparison with the
truthiness-guarded behaviour of the client. -/
def firstCarriedSid (parse : String → Option ChatEvent) (lines : List String) :
    Option String :=
  ((parsedDeltaEvents parse lines).filterMap (fun e => e.session_id)).head?

/-- `streamChatMessage` of `frontend/lib/api.ts` (lines 73-94), the async
generator over the event stream, at line granularity: a `data: ` line is
stripped (no trim here, unlike the inline loop of `ChatInterface`);
`[DONE]` makes the generator `return`; a line that parses is yielded;
end of stream terminates.  Returns the list of yielded events. -/
def streamChat (parse : String → Option ChatEvent) : List String → List ChatEvent
  | [] => []
  | line :: rest =>
    if jsStartsWith line "data: " then
      let data := jsDrop line 6
      if data = "[DONE]" then []
      else
        match parse data with
        | some ev => ev :: streamChat parse rest
        | none => streamChat parse rest
    else streamChat parse rest

/-- The `data: ` payloads of a line sequence that precede the first
`[DONE]` sentinel, in order (the claim-side description of the generator
output). -/
def dataPayloadsBeforeDone (lines : List String) : List String :=
  ((lines.filter (fun l => jsStartsWith l "data: ")).map (fun l => jsDrop l 6)).takeWhile
    (fun d => d ≠ "[DONE]")

/-- The `onChange` sanitizer of the phone number input in `CallbackForm`
(line 170): `value.replace(/[^\d\s]/g, "")` keeps only digits and
whitespace. -/
def sanitizePhoneInput (s : String) : String :=
  String.mk (s.data.filter (fun c => c.isDigit || isJsSpace c))

/-- `phoneNumber.replace(/\s/g, "")` from `CallbackForm.handleSubmit`
(line 49): the phone number with all whitespace removed. -/
def cleanNumber (phone : String) : String :=
  String.mk (phone.data.filter (fun c => !(isJsSpace c)))

/-- Status of the callback form (`FormStatus` in `CallbackForm`). -/
inductive FormStatus where
  | idle
  | loading
  | success
  | error
deriving DecidableEq, Repr

/-- A country entry of the `COUNTRIES` table: dial code and language. -/
structure Country where
  code : String
  lang : String
deriving DecidableEq, Repr

/-- React state of `CallbackForm` that `handleSubmit` touches. -/
structure CallbackFormState where
  selectedCountry : Country
  phoneNumber : String
  status : FormStatus
  errorMessage : String
deriving DecidableEq, Repr

/-- Body of a POST to `/call/request`. -/
structure CallRequest where
  phone_number : String
  country_code : String
  session_id : Option String
  language : String
deriving DecidableEq, Repr

/-- Outcome of the `/call/request` fetch: success, an HTTP error carrying
the decoded `detail`, or the fetch throwing. -/
inductive CallOutcome where
  | ok
  | httpError (detail : String)
  | netError
deriving DecidableEq, Repr

/-- `CallbackForm.handleSubmit` (lines 45-90): validates the cleaned
length of the cleaned number, or else POSTs the call request; returns the new state and
the request issued (`none` when validation blocks it). -/
def handleSubmit (st : CallbackFormState) (sessionId : Option String)
    (outcome : CallOutcome) : CallbackFormState × Option CallRequest :=
  let clean := cleanNumber st.phoneNumber
  if clean.length < 6 ∨ clean.length > 15 then
    ({ st with errorMessage := "Please enter a valid phone number",
               status := FormStatus.error }, none)
  else
    let st1 := { st with status := FormStatus.loading, errorMessage := "" }
    let req : CallRequest :=
      ⟨clean, st.selectedCountry.code, sessionId, st.selectedCountry.lang⟩
    match outcome with
    | CallOutcome.ok => ({ st1 with status := FormStatus.success }, some req)
    | CallOutcome.httpError detail =>
      ({ st1 with errorMessage := detail, status := FormStatus.error }, some req)
    | CallOutcome.netError =>
      ({ st1 with errorMessage := "Failed to request callback",
                  status := FormStatus.error }, some req)

/-- React state of `VoiceInterface` that `processAudio` touches. -/
structure VoiceState where
  messages : List Message
  isRecording : Bool
  isProcessing : Bool
  isSpeaking : Bool
  sessionId : Option String
  error : Option String
deriving DecidableEq, Repr

/-- Outcome of the `/voice/transcribe` fetch: failure (HTTP or network) or
a transcript string. -/
inductive TranscribeOutcome where
  | failure
  | ok (transcript : String)
deriving DecidableEq, Repr

/-- Outcome of the follow-up `/chat` fetch in `processAudio`. -/
inductive ChatCallOutcome where
  | ok (response : String) (session_id : String)
  | failure
deriving DecidableEq, Repr

/-- `VoiceInterface.processAudio` (lines 74-147): transcribe, bail out on an
empty transcript, append the user turn, call `/chat`, record the session id
if unset, append the assistant turn, then synthesize speech (`synthOk`
is whether the fetch inside `speakText` succeeded, leaving audio playing).  Returns
the new state and the `/chat` request issued, if any. -/
def processAudio (st : VoiceState) (tr : TranscribeOutcome)
    (co : ChatCallOutcome) (synthOk : Bool) (now : Nat) :
    VoiceState × Option ChatRequest :=
  let st0 := { st with isProcessing := true }
  match tr with
  | TranscribeOutcome.failure =>
    ({ st0 with error := some "An error occurred. Please try again.",
                isProcessing := false }, none)
  | TranscribeOutcome.ok transcript =>
    if jsTrim transcript = "" then
      ({ st0 with error := some "Could not understand audio. Please try again.",
                  isProcessing := false }, none)
    else
      let userMessage : Message := ⟨toString now, Role.user, transcript, now⟩
      let st1 := { st0 with messages := st0.messages ++ [userMessage] }
      let req : ChatRequest := ⟨transcript, st.sessionId⟩
      match co with
      | ChatCallOutcome.failure =>
        ({ st1 with error := some "An error occurred. Please try again.",
                    isProcessing := false }, some req)
      | ChatCallOutcome.ok response sid =>
        let st2 := { st1 with
          sessionId := if jsTruthy st1.sessionId then st1.sessionId else some sid }
        let assistantMessage : Message :=
          ⟨toString (now + 1), Role.assistant, response, now + 1⟩
        let st3 := { st2 with messages := st2.messages ++ [assistantMessage] }
        ({ st3 with isSpeaking := synthOk, isProcessing := false }, some req)

/-- Modelled from the spec: the Run Gate of §4.2 (`backend/api.py` is not
among the provided sources).  The state of the gate is the set of session ids
with an outstanding lease. -/
structure RunGate where
  held : List String
deriving DecidableEq, Repr

/-- Modelled from the spec: result of `acquire(session_id)` — a `Lease`
(carrying its session id) or `Busy`. -/
inductive AcquireResult where
  | lease (sid : String)
  | busy
deriving DecidableEq, Repr

/-- Modelled from the spec: `acquire(session_id) -> Lease | Busy`; a second
acquire for a session with an outstanding lease fails fast with `Busy`
without queuing. -/
def RunGate.acquire (g : RunGate) (sid : String) : RunGate × AcquireResult :=
  if sid ∈ g.held then (g, AcquireResult.busy)
  else (⟨sid :: g.held⟩, AcquireResult.lease sid)

/-- Modelled from the spec: `release(lease)`, idempotent. -/
def RunGate.release (g : RunGate) (sid : String) : RunGate :=
  ⟨g.held.filter (fun s => s != sid)⟩

/-- A gate operation: an acquire or a release for a session id. -/
inductive GateOp where
  | acq (sid : String)
  | rel (sid : String)
deriving DecidableEq, Repr

/-- Apply one gate operation to the gate state. -/
def applyGateOp (g : RunGate) : GateOp → RunGate
  | GateOp.acq sid => (g.acquire sid).1
  | GateOp.rel sid => g.release sid

/-- Run a sequence of interleaved gate operations (the shallow embedding of
concurrent acquires/releases as an arbitrary interleaving). -/
def runGateOps (g : RunGate) (ops : List GateOp) : RunGate :=
  ops.foldl applyGateOp g

/-- N sequential `acquire` calls for the same session (the interleaving of
N concurrent turns hitting the gate). -/
def acquireMany (g : RunGate) (sid : String) : Nat → RunGate × List AcquireResult
  | 0 => (g, [])
  | n + 1 =>
    let first := g.acquire sid
    let rest := acquireMany first.1 sid n
    (rest.1, first.2 :: rest.2)

/-- Modelled from the spec: one terminal status of a run (§4.3 plus the
timeout policy). -/
inductive RunOutcome where
  | completed
  | failed
  | cancelled
  | timedOut
deriving DecidableEq, Repr

/-- Result of one turn against the gate: `busy`, or finished with a
terminal run status. -/
inductive TurnResult where
  | busy
  | finished (o : RunOutcome)
deriving DecidableEq, Repr

/-- Modelled from the spec: the scoped use of the gate by the Run Executor —
acquire, drive the run to any terminal status, release on that exit path
(§4.2: release is called on every exit path). -/
def runTurn (g : RunGate) (sid : String) (o : RunOutcome) : RunGate × TurnResult :=
  match g.acquire sid with
  | (g1, AcquireResult.busy) => (g1, TurnResult.busy)
  | (g1, AcquireResult.lease l) => (g1.release l, TurnResult.finished o)

/-- A concrete event parser used to exercise the model on closed inputs. -/
def testParse : String → Option ChatEvent
  | "tHello" => some ⟨some "Hello", none⟩
  | "tWorld" => some ⟨some " world", none⟩
  | "sidEmpty" => some ⟨none, some ""⟩
  | "sidAbc" => some ⟨none, some "abc"⟩
  | _ => none

/-- The initial `ChatInterface` state: no messages, empty input, not
loading, empty streaming buffer, no session id. -/
def chatState0 : ChatState := ⟨[], "", false, "", "", none⟩

/-- The initial `VoiceInterface` state. -/
def voiceState0 : VoiceState := ⟨[], false, false, false, none, none⟩

lemma acquire_of_mem (g : RunGate) (sid : String) (h : sid ∈ g.held) :
    g.acquire sid = (g, AcquireResult.busy) := by
  simp [RunGate.acquire, h]

lemma acquire_of_not_mem (g : RunGate) (sid : String) (h : sid ∉ g.held) :
    g.acquire sid = (⟨sid :: g.held⟩, AcquireResult.lease sid) := by
  simp [RunGate.acquire, h]

lemma acquireMany_of_mem (g : RunGate) (sid : String) (h : sid ∈ g.held) :
    ∀ n, acquireMany g sid n = (g, List.replicate n AcquireResult.busy)
  | 0 => by simp [acquireMany]
  | n + 1 => by
    simp [acquireMany, acquire_of_mem g sid h, acquireMany_of_mem g sid h n,
      List.replicate_succ]

lemma filter_ne_of_not_mem (l : List String) (sid : String) (h : sid ∉ l) :
    l.filter (fun s => s != sid) = l := by
  refine List.filter_eq_self.mpr (fun a ha => ?_)
  rw [bne_iff_ne]
  exact fun e => h (e ▸ ha)

lemma applyGateOp_nodup (g : RunGate) (op : GateOp) (h : g.held.Nodup) :
    (applyGateOp g op).held.Nodup := by
  cases op with
  | acq sid =>
    by_cases hm : sid ∈ g.held
    · simpa [applyGateOp, RunGate.acquire, hm] using h
    · have hcons : (sid :: g.held).Nodup := List.nodup_cons.mpr ⟨hm, h⟩
      simpa [applyGateOp, RunGate.acquire, hm] using hcons
  | rel sid => exact h.filter _

lemma runGateOps_nodup : ∀ (ops : List GateOp) (g : RunGate),
    g.held.Nodup → (runGateOps g ops).held.Nodup
  | [], _, h => h
  | op :: ops, g, h =>
    runGateOps_nodup ops (applyGateOp g op) (applyGateOp_nodup g op h)

/-- C1: at most one Run Gate lease is outstanding per session in any state
reachable by interleaved acquires and releases; an `acquire` for a session
whose lease is outstanding returns `Busy` at once without changing the
state; and of `n + 1` turns racing on one session, exactly the first
proceeds and the rest all receive `Busy`. -/
theorem runGate_single_flight :
    (∀ (ops : List GateOp) (sid : String),
      (runGateOps ⟨[]⟩ ops).held.count sid ≤ 1) ∧
    (∀ (g : RunGate) (sid : String), sid ∈ g.held →
      g.acquire sid = (g, AcquireResult.busy)) ∧
    (∀ (g : RunGate) (sid : String) (n : Nat), sid ∉ g.held →
      acquireMany g sid (n + 1) =
        (⟨sid :: g.held⟩, AcquireResult.lease sid :: List.replicate n AcquireResult.busy)) := by
  refine ⟨fun ops sid => ?_, acquire_of_mem, fun g sid n h => ?_⟩
  · exact List.nodup_iff_count_le_one.mp
      (runGateOps_nodup ops ⟨[]⟩ List.nodup_nil) sid
  · have hmem : sid ∈ (⟨sid :: g.held⟩ : RunGate).held := List.mem_cons_self _ _
    simp [acquireMany, acquire_of_not_mem g sid h, acquireMany_of_mem _ sid hmem n]

/-- Spot check of `runGate_single_flight` on concrete gate states. -/
theorem runGate_single_flight_spot :
    (("s" : String) ∈ (⟨["s"]⟩ : RunGate).held ∧
      RunGate.acquire ⟨["s"]⟩ "s" = (⟨["s"]⟩, AcquireResult.busy)) ∧
    (("s" : String) ∉ (⟨["t"]⟩ : RunGate).held ∧
      acquireMany ⟨["t"]⟩ "s" (2 + 1) =
        (⟨["s", "t"]⟩, AcquireResult.lease "s" :: List.replicate 2 AcquireResult.busy)) :=
  ⟨⟨by decide, runGate_single_flight.2.1 ⟨["s"]⟩ "s" (by decide)⟩,
   ⟨by decide, runGate_single_flight.2.2 ⟨["t"]⟩ "s" 2 (by decide)⟩⟩

/-- C2: `release` is idempotent, and a turn that actually runs — with any
terminal outcome: completed, failed, cancelled or timed out — leaves the
gate exactly as it found it, in particular not holding the lease of that session. -/
theorem runGate_release_on_exit :
    (∀ (g : RunGate) (sid : String), (g.release sid).release sid = g.release sid) ∧
    (∀ (g : RunGate) (sid : String) (o : RunOutcome), sid ∉ g.held →
      (runTurn g sid o).1 = g ∧ sid ∉ (runTurn g sid o).1.held) := by
  constructor
  · intro g sid
    show (⟨((g.held.filter _).filter _ : List String)⟩ : RunGate) = ⟨g.held.filter _⟩
    congr 1
    exact List.filter_eq_self.mpr (fun a ha => (List.mem_filter.mp ha).2)
  · intro g sid o h
    have hfirst : (runTurn g sid o).1 = g := by
      cases g with
      | mk held =>
        simp [runTurn, acquire_of_not_mem _ sid h, RunGate.release,
          filter_ne_of_not_mem held sid h]
    exact ⟨hfirst, by rw [hfirst]; exact h⟩

/-- Spot check of `runGate_release_on_exit` on a concrete gate state. -/
theorem runGate_release_on_exit_spot :
    (RunGate.release (RunGate.release ⟨["s"]⟩ "s") "s" = RunGate.release ⟨["s"]⟩ "s") ∧
    (("s" : String) ∉ (⟨["t"]⟩ : RunGate).held ∧
      ((runTurn ⟨["t"]⟩ "s" RunOutcome.timedOut).1 = ⟨["t"]⟩ ∧
        ("s" : String) ∉ (runTurn ⟨["t"]⟩ "s" RunOutcome.timedOut).1.held)) :=
  ⟨runGate_release_on_exit.1 ⟨["s"]⟩ "s",
   by decide,
   runGate_release_on_exit.2 ⟨["t"]⟩ "s" RunOutcome.timedOut (by decide)⟩

lemma procLine_not_data (parse : String → Option ChatEvent)
    (acc : String × Option String) (line : String)
    (h : jsStartsWith line "data: " = false) : procLine parse acc line = acc := by
  simp [procLine, h]

lemma procLine_done (parse : String → Option ChatEvent)
    (acc : String × Option String) (line : String)
    (hs : jsStartsWith line "data: " = true) (hd : jsTrim (jsDrop line 6) = "[DONE]") :
    procLine parse acc line = acc := by
  simp [procLine, hs, hd]

lemma procLine_parse_none (parse : String → Option ChatEvent)
    (acc : String × Option String) (line : String)
    (hs : jsStartsWith line "data: " = true) (hd : jsTrim (jsDrop line 6) ≠ "[DONE]")
    (hp : parse (jsTrim (jsDrop line 6)) = none) : procLine parse acc line = acc := by
  simp [procLine, hs, hd, hp]

lemma procLine_parse_some (parse : String → Option ChatEvent)
    (acc : String × Option String) (line : String) (ev : ChatEvent)
    (hs : jsStartsWith line "data: " = true) (hd : jsTrim (jsDrop line 6) ≠ "[DONE]")
    (hp : parse (jsTrim (jsDrop line 6)) = some ev) :
    procLine parse acc line =
      (if jsTruthy ev.text then acc.1 ++ ev.text.getD "" else acc.1,
       if jsTruthy ev.session_id && !(jsTruthy acc.2) then ev.session_id else acc.2) := by
  simp [procLine, hs, hd, hp]

lemma pde_cons_not_data (parse : String → Option ChatEvent)
    (line : String) (rest : List String) (h : jsStartsWith line "data: " = false) :
    parsedDeltaEvents parse (line :: rest) = parsedDeltaEvents parse rest := by
  simp [parsedDeltaEvents, List.filterMap_cons, h]

lemma pde_cons_done (parse : String → Option ChatEvent)
    (line : String) (rest : List String)
    (hs : jsStartsWith line "data: " = true) (hd : jsTrim (jsDrop line 6) = "[DONE]") :
    parsedDeltaEvents parse (line :: rest) = parsedDeltaEvents parse rest := by
  simp [parsedDeltaEvents, List.filterMap_cons, hs, hd]

lemma pde_cons_parse_none (parse : String → Option ChatEvent)
    (line : String) (rest : List String)
    (hs : jsStartsWith line "data: " = true) (hd : jsTrim (jsDrop line 6) ≠ "[DONE]")
    (hp : parse (jsTrim (jsDrop line 6)) = none) :
    parsedDeltaEvents parse (line :: rest) = parsedDeltaEvents parse rest := by
  simp [parsedDeltaEvents, List.filterMap_cons, hs, hd, hp]

lemma pde_cons_parse_some (parse : String → Option ChatEvent)
    (line : String) (rest : List String) (ev : ChatEvent)
    (hs : jsStartsWith line "data: " = true) (hd : jsTrim (jsDrop line 6) ≠ "[DONE]")
    (hp : parse (jsTrim (jsDrop line 6)) = some ev) :
    parsedDeltaEvents parse (line :: rest) = ev :: parsedDeltaEvents parse rest := by
  simp [parsedDeltaEvents, List.filterMap_cons, hs, hd, hp]

lemma truthy_text_append (b : String) (t : Option String) :
    (if jsTruthy t then b ++ t.getD "" else b) = b ++ t.getD "" := by
  cases t with
  | none => simp [jsTruthy, String.append_empty]
  | some s =>
    by_cases hse : s = ""
    · simp [jsTruthy, hse, String.append_empty]
    · simp [jsTruthy, hse]

lemma foldl_procLine_buf (parse : String → Option ChatEvent) :
    ∀ (lines : List String) (b : String) (sid : Option String),
      (lines.foldl (procLine parse) (b, sid)).1
        = b ++ concatTexts (parsedDeltaEvents parse lines)
  | [], b, sid => by simp [parsedDeltaEvents, concatTexts, String.append_empty]
  | line :: rest, b, sid => by
    rw [List.foldl_cons]
    by_cases hs : jsStartsWith line "data: "
    · by_cases hd : jsTrim (jsDrop line 6) = "[DONE]"
      · rw [procLine_done parse _ line hs hd, pde_cons_done parse line rest hs hd]
        exact foldl_procLine_buf parse rest b sid
      · cases hp : parse (jsTrim (jsDrop line 6)) with
        | none =>
          rw [procLine_parse_none parse _ line hs hd hp,
            pde_cons_parse_none parse line rest hs hd hp]
          exact foldl_procLine_buf parse rest b sid
        | some ev =>
          rw [procLine_parse_some parse _ line ev hs hd hp,
            pde_cons_parse_some parse line rest ev hs hd hp]
          have hb := truthy_text_append b ev.text
          simp only [hb]
          rw [foldl_procLine_buf parse rest (b ++ ev.text.getD "") _]
          simp [concatTexts, String.append_assoc]
    · rw [procLine_not_data parse _ line (by simpa using hs),
        pde_cons_not_data parse line rest (by simpa using hs)]
      exact foldl_procLine_buf parse rest b sid

lemma foldl_procLine_sid_truthy (parse : String → Option ChatEvent) :
    ∀ (lines : List String) (b : String) (sid : Option String),
      jsTruthy sid = true → (lines.foldl (procLine parse) (b, sid)).2 = sid
  | [], _, _, _ => rfl
  | line :: rest, b, sid, ht => by
    rw [List.foldl_cons]
    by_cases hs : jsStartsWith line "data: "
    · by_cases hd : jsTrim (jsDrop line 6) = "[DONE]"
      · rw [procLine_done parse _ line hs hd]
        exact foldl_procLine_sid_truthy parse rest b sid ht
      · cases hp : parse (jsTrim (jsDrop line 6)) with
        | none =>
          rw [procLine_parse_none parse _ line hs hd hp]
          exact foldl_procLine_sid_truthy parse rest b sid ht
        | some ev =>
          rw [procLine_parse_some parse _ line ev hs hd hp]
          simp only [ht, Bool.not_true, Bool.and_false, if_neg Bool.false_ne_true]
          exact foldl_procLine_sid_truthy parse rest _ sid ht
    · rw [procLine_not_data parse _ line (by simpa using hs)]
      exact foldl_procLine_sid_truthy parse rest b sid ht

lemma foldl_procLine_sid_none (parse : String → Option ChatEvent) :
    ∀ (lines : List String) (b : String),
      (lines.foldl (procLine parse) (b, none)).2 = firstTruthySid parse lines
  | [], _ => rfl
  | line :: rest, b => by
    rw [List.foldl_cons]
    by_cases hs : jsStartsWith line "data: "
    · by_cases hd : jsTrim (jsDrop line 6) = "[DONE]"
      · rw [procLine_done parse _ line hs hd]
        rw [foldl_procLine_sid_none parse rest b]
        simp [firstTruthySid, pde_cons_done parse line rest hs hd]
      · cases hp : parse (jsTrim (jsDrop line 6)) with
        | none =>
          rw [procLine_parse_none parse _ line hs hd hp]
          rw [foldl_procLine_sid_none parse rest b]
          simp [firstTruthySid, pde_cons_parse_none parse line rest hs hd hp]
        | some ev =>
          rw [procLine_parse_some parse _ line ev hs hd hp]
          cases hsid : ev.session_id with
          | none =>
            simp only [hsid, jsTruthy, Bool.false_and, if_neg Bool.false_ne_true]
            rw [foldl_procLine_sid_none parse rest _]
            simp [firstTruthySid, pde_cons_parse_some parse line rest ev hs hd hp,
              List.filterMap_cons, hsid]
          | some s =>
            by_cases hse : s = ""
            · simp only [hsid, hse, jsTruthy, bne_self_eq_false, Bool.false_and,
                if_neg Bool.false_ne_true]
              rw [foldl_procLine_sid_none parse rest _]
              simp [firstTruthySid, pde_cons_parse_some parse line rest ev hs hd hp,
                List.filterMap_cons, hsid, hse]
            · have htr : jsTruthy (some s) = true := by simp [jsTruthy, hse]
              have hcond :
                  (if jsTruthy (some s) && !(jsTruthy ((b, (none : Option String))).2)
                    then some s else ((b, (none : Option String))).2) = some s := by
                simp [jsTruthy, hse]
              rw [hcond, foldl_procLine_sid_truthy parse rest _ (some s) htr]
              simp [firstTruthySid, pde_cons_parse_some parse line rest ev hs hd hp,
                List.filterMap_cons, hsid, hse]
    · rw [procLine_not_data parse _ line (by simpa using hs)]
      rw [foldl_procLine_sid_none parse rest b]
      simp [firstTruthySid, pde_cons_not_data parse line rest (by simpa using hs)]

lemma guard_false {st : ChatState} {msg : String}
    (h1 : jsTrim msg ≠ "") (h2 : st.isLoading = false) :
    ¬(jsTrim msg = "" ∨ st.isLoading = true) := by
  rintro (hc | hc)
  · exact h1 hc
  · rw [h2] at hc
    cases hc

/-- C7: the streaming generator of `frontend/lib/api.ts` yields exactly the
parses of the `data: ` payloads that precede the first `[DONE]` sentinel, in
order, and yields nothing further after the sentinel or the end of the
stream. -/
theorem streamChat_yields_payloads (parse : String → Option ChatEvent) :
    ∀ lines : List String,
      streamChat parse lines = (dataPayloadsBeforeDone lines).filterMap parse
  | [] => rfl
  | line :: rest => by
    by_cases hs : jsStartsWith line "data: "
    · by_cases hd : jsDrop line 6 = "[DONE]"
      · simp [streamChat, dataPayloadsBeforeDone, hs, hd, List.filter_cons,
          List.takeWhile]
      · cases hp : parse (jsDrop line 6) with
        | none =>
          have ih := streamChat_yields_payloads parse rest
          simp [streamChat, dataPayloadsBeforeDone, hs, hd, hp, List.filter_cons,
            List.takeWhile, List.filterMap_cons] at ih ⊢
          exact ih
        | some ev =>
          have ih := streamChat_yields_payloads parse rest
          simp [streamChat, dataPayloadsBeforeDone, hs, hd, hp, List.filter_cons,
            List.takeWhile, List.filterMap_cons] at ih ⊢
          exact ih
    · have hs' : jsStartsWith line "data: " = false := by simpa using hs
      have ih := streamChat_yields_payloads parse rest
      simp [streamChat, dataPayloadsBeforeDone, hs', List.filter_cons] at ih ⊢
      exact ih

/-- C8: an empty or whitespace-only input, or a turn submitted while the
previous one is still loading, leaves the state untouched and issues no
request. -/
theorem sendMessage_guard_blocks (parse : String → Option ChatEvent)
    (st : ChatState) (messageText : String) (now : Nat) (res : FetchResult)
    (h : jsTrim messageText = "" ∨ st.isLoading = true) :
    sendMessage parse st messageText now res = (st, none) := by
  unfold sendMessage
  rw [if_pos h]

/-- Spot check of `sendMessage_guard_blocks`: whitespace-only input, and a
turn in flight. -/
theorem sendMessage_guard_blocks_spot :
    ((jsTrim "  " = "" ∨ chatState0.isLoading = true) ∧
      sendMessage testParse chatState0 "  " 0 FetchResult.fetchError = (chatState0, none)) ∧
    ((jsTrim "hi" = "" ∨ ({ chatState0 with isLoading := true } : ChatState).isLoading = true) ∧
      sendMessage testParse { chatState0 with isLoading := true } "hi" 0
        (FetchResult.body ["data: tHello"] false) =
        ({ chatState0 with isLoading := true }, none)) :=
  ⟨⟨Or.inl (by decide),
    sendMessage_guard_blocks testParse chatState0 "  " 0 FetchResult.fetchError
      (Or.inl (by decide))⟩,
   ⟨Or.inr (by decide),
    sendMessage_guard_blocks testParse { chatState0 with isLoading := true } "hi" 0
      (FetchResult.body ["data: tHello"] false) (Or.inr (by decide))⟩⟩

/-- `res` is one of the error paths of `sendMessage`: the fetch threw, the
response was not ok, the body was missing, or reading the stream failed. -/
def isErrorOutcome : FetchResult → Bool
  | FetchResult.fetchError => true
  | FetchResult.notOk => true
  | FetchResult.noBody => true
  | FetchResult.body _ failsAfter => failsAfter

/-- C5: on every error path of a streaming chat request the client appends
exactly one assistant-role fallback message (after the user turn), clears
the streaming buffer, and resets the loading flag. -/
theorem sendMessage_error_fallback (parse : String → Option ChatEvent)
    (st : ChatState) (msg : String) (now : Nat) (res : FetchResult)
    (h1 : jsTrim msg ≠ "") (h2 : st.isLoading = false)
    (h3 : isErrorOutcome res = true) :
    ∃ u : Message,
      (sendMessage parse st msg now res).1.messages
        = st.messages ++
            [u, ⟨toString (now + 1), Role.assistant, errorContent, now + 1⟩] ∧
      u.role = Role.user ∧
      (sendMessage parse st msg now res).1.streamingRef = "" ∧
      (sendMessage parse st msg now res).1.streamingContent = "" ∧
      (sendMessage parse st msg now res).1.isLoading = false := by
  refine ⟨⟨toString now, Role.user, jsTrim msg, now⟩, ?_⟩
  unfold sendMessage
  rw [if_neg (guard_false h1 h2)]
  cases res with
  | fetchError => simp [errorFinalize]
  | notOk => simp [errorFinalize]
  | noBody => simp [errorFinalize]
  | body lines failsAfter =>
    cases failsAfter with
    | false => simp [isErrorOutcome] at h3
    | true => simp [errorFinalize]

/-- Spot check of `sendMessage_error_fallback` on a failed stream read. -/
theorem sendMessage_error_fallback_spot :
    (jsTrim "hi" ≠ "" ∧ chatState0.isLoading = false ∧
      isErrorOutcome (FetchResult.body ["data: tHello"] true) = true) ∧
    ∃ u : Message,
      (sendMessage testParse chatState0 "hi" 0
          (FetchResult.body ["data: tHello"] true)).1.messages
        = chatState0.messages ++
            [u, ⟨toString (0 + 1), Role.assistant, errorContent, 0 + 1⟩] ∧
      u.role = Role.user ∧
      (sendMessage testParse chatState0 "hi" 0
          (FetchResult.body ["data: tHello"] true)).1.streamingRef = "" ∧
      (sendMessage testParse chatState0 "hi" 0
          (FetchResult.body ["data: tHello"] true)).1.streamingContent = "" ∧
      (sendMessage testParse chatState0 "hi" 0
          (FetchResult.body ["data: tHello"] true)).1.isLoading = false :=
  ⟨⟨by decide, rfl, rfl⟩,
    sendMessage_error_fallback testParse chatState0 "hi" 0
      (FetchResult.body ["data: tHello"] true) (by decide) rfl rfl⟩

/-- C6: the transcript is append-only — `sendMessage` only ever appends, the
appended tail is empty exactly when the guard blocked the turn, and a turn
that ran appends exactly one user message followed by one assistant
message. -/
theorem transcript_append_only (parse : String → Option ChatEvent)
    (st : ChatState) (msg : String) (now : Nat) (res : FetchResult) :
    ∃ tail : List Message,
      (sendMessage parse st msg now res).1.messages = st.messages ++ tail ∧
      (tail = [] ↔ (jsTrim msg = "" ∨ st.isLoading = true)) ∧
      (tail = [] ∨ ∃ u a : Message,
        tail = [u, a] ∧ u.role = Role.user ∧ a.role = Role.assistant) := by
  by_cases hg : jsTrim msg = "" ∨ st.isLoading = true
  · refine ⟨[], ?_, ?_, Or.inl rfl⟩
    · rw [sendMessage_guard_blocks parse st msg now res hg]
      simp
    · simpa using hg
  · unfold sendMessage
    rw [if_neg hg]
    cases res with
    | fetchError =>
      exact ⟨[⟨toString now, Role.user, jsTrim msg, now⟩,
        ⟨toString (now + 1), Role.assistant, errorContent, now + 1⟩],
        by simp [errorFinalize], by simpa using hg,
        Or.inr ⟨_, _, rfl, rfl, rfl⟩⟩
    | notOk =>
      exact ⟨[⟨toString now, Role.user, jsTrim msg, now⟩,
        ⟨toString (now + 1), Role.assistant, errorContent, now + 1⟩],
        by simp [errorFinalize], by simpa using hg,
        Or.inr ⟨_, _, rfl, rfl, rfl⟩⟩
    | noBody =>
      exact ⟨[⟨toString now, Role.user, jsTrim msg, now⟩,
        ⟨toString (now + 1), Role.assistant, errorContent, now + 1⟩],
        by simp [errorFinalize], by simpa using hg,
        Or.inr ⟨_, _, rfl, rfl, rfl⟩⟩
    | body lines failsAfter =>
      cases failsAfter with
      | true =>
        exact ⟨[⟨toString now, Role.user, jsTrim msg, now⟩,
          ⟨toString (now + 1), Role.assistant, errorContent, now + 1⟩],
          by simp [errorFinalize], by simpa using hg,
          Or.inr ⟨_, _, rfl, rfl, rfl⟩⟩
      | false =>
        exact ⟨[⟨toString now, Role.user, jsTrim msg, now⟩,
          ⟨toString (now + 1), Role.assistant,
            (lines.foldl (procLine parse) ("", st.sessionId)).1, now + 1⟩],
          by simp, by simpa using hg,
          Or.inr ⟨_, _, rfl, rfl, rfl⟩⟩

/-- C3: the assistant message finalized into the transcript on a successful
stream is exactly the concatenation, in arrival order, of the `text` fields
of the parsed delta events. -/
theorem stream_finalize_concat_deltas (parse : String → Option ChatEvent)
    (st : ChatState) (msg : String) (now : Nat) (lines : List String)
    (h1 : jsTrim msg ≠ "") (h2 : st.isLoading = false) :
    (sendMessage parse st msg now (FetchResult.body lines false)).1.messages
      = st.messages ++
          [⟨toString now, Role.user, jsTrim msg, now⟩,
           ⟨toString (now + 1), Role.assistant,
             concatTexts (parsedDeltaEvents parse lines), now + 1⟩] := by
  unfold sendMessage
  rw [if_neg (guard_false h1 h2)]
  have hbuf := foldl_procLine_buf parse lines "" st.sessionId
  simp at hbuf ⊢
  rw [hbuf]

/-- Spot check of `stream_finalize_concat_deltas` on a concrete stream. -/
theorem stream_finalize_concat_deltas_spot :
    (jsTrim "hi" ≠ "" ∧ chatState0.isLoading = false) ∧
    (sendMessage testParse chatState0 "hi" 5
        (FetchResult.body ["data: tHello", "data: tWorld", "data: [DONE]"] false)).1.messages
      = chatState0.messages ++
          [⟨toString 5, Role.user, jsTrim "hi", 5⟩,
           ⟨toString (5 + 1), Role.assistant,
             concatTexts (parsedDeltaEvents testParse
               ["data: tHello", "data: tWorld", "data: [DONE]"]), 5 + 1⟩] :=
  ⟨⟨by decide, rfl⟩,
    stream_finalize_concat_deltas testParse chatState0 "hi" 5
      ["data: tHello", "data: tWorld", "data: [DONE]"] (by decide) rfl⟩

lemma sendMessage_preserves_sid (parse : String → Option ChatEvent)
    (st : ChatState) (msg : String) (now : Nat) (res : FetchResult)
    (s : String) (hs : st.sessionId = some s) (hne : s ≠ "") :
    (sendMessage parse st msg now res).1.sessionId = some s ∧
    (∀ r : ChatRequest, (sendMessage parse st msg now res).2 = some r →
      r.session_id = some s) := by
  have htr : jsTruthy (some s) = true := by simp [jsTruthy, hne]
  by_cases hg : jsTrim msg = "" ∨ st.isLoading = true
  · rw [sendMessage_guard_blocks parse st msg now res hg]
    exact ⟨hs, fun r hr => by cases hr⟩
  · unfold sendMessage
    rw [if_neg hg]
    cases res with
    | fetchError => exact ⟨by simp [errorFinalize, hs], fun r hr => by
        simp at hr; rw [← hr]; simp [hs]⟩
    | notOk => exact ⟨by simp [errorFinalize, hs], fun r hr => by
        simp at hr; rw [← hr]; simp [hs]⟩
    | noBody => exact ⟨by simp [errorFinalize, hs], fun r hr => by
        simp at hr; rw [← hr]; simp [hs]⟩
    | body lines failsAfter =>
      have hfold : (lines.foldl (procLine parse) ("", st.sessionId)).2 = some s := by
        rw [hs]
        exact foldl_procLine_sid_truthy parse lines "" (some s) htr
      cases failsAfter with
      | true => exact ⟨by simp [errorFinalize, hfold], fun r hr => by
          simp at hr; rw [← hr]; simp [hs]⟩
      | false => exact ⟨by simp [hfold], fun r hr => by
          simp at hr; rw [← hr]; simp [hs]⟩

lemma runTurns_preserves_sid (parse : String → Option ChatEvent) (s : String) :
    ∀ (turns : List (String × Nat × FetchResult)) (st : ChatState),
      st.sessionId = some s → s ≠ "" →
      (runTurns parse st turns).1.sessionId = some s ∧
      ∀ r ∈ (runTurns parse st turns).2, r.session_id = some s
  | [], st, hs, _ => ⟨hs, by simp [runTurns]⟩
  | (msg, now, res) :: rest, st, hs, hne => by
    have hstep := sendMessage_preserves_sid parse st msg now res s hs hne
    have hrest := runTurns_preserves_sid parse s rest
      (sendMessage parse st msg now res).1 hstep.1 hne
    refine ⟨by simpa [runTurns] using hrest.1, ?_⟩
    intro r hr
    simp [runTurns] at hr
    rcases hr with hr | hr
    · exact hstep.2 r hr
    · exact hrest.2 r hr

/-- C4 (amended): on a fresh turn with no session id, the client persists
the first non-empty `session_id` carried by the streamed events; and once a
non-empty session id is persisted, every subsequent request of the
conversation carries exactly that value and no later event replaces it. -/
theorem session_id_first_nonempty_persists (parse : String → Option ChatEvent)
    (st : ChatState) (msg : String) (now : Nat) (lines : List String) (fa : Bool)
    (turns : List (String × Nat × FetchResult)) (s : String) :
    (st.sessionId = none → jsTrim msg ≠ "" → st.isLoading = false →
      (sendMessage parse st msg now (FetchResult.body lines fa)).1.sessionId
        = firstTruthySid parse lines) ∧
    (st.sessionId = some s → s ≠ "" →
      (runTurns parse st turns).1.sessionId = some s ∧
      ∀ r ∈ (runTurns parse st turns).2, r.session_id = some s) := by
  constructor
  · intro hnone h1 h2
    unfold sendMessage
    rw [if_neg (guard_false h1 h2)]
    have hfold : (lines.foldl (procLine parse) ("", st.sessionId)).2
        = firstTruthySid parse lines := by
      rw [hnone]
      exact foldl_procLine_sid_none parse lines ""
    cases fa with
    | true => simp [errorFinalize, hfold]
    | false => simp [hfold]
  · intro hs hne
    exact runTurns_preserves_sid parse s turns st hs hne

/-- C4 as frozen is false on the code: an event carrying the empty-string
`session_id` is skipped by the truthiness guard, so the client persists the
first non-empty value instead of the first carried value. -/
theorem session_id_first_carried_counterexample :
    firstCarriedSid testParse ["data: sidEmpty", "data: sidAbc"] = some "" ∧
    (sendMessage testParse chatState0 "hi" 0
        (FetchResult.body ["data: sidEmpty", "data: sidAbc"] false)).1.sessionId
      = some "abc" ∧
    some "abc" ≠ some "" := by
  refine ⟨by decide, by decide, by decide⟩

/-- Spot check of `session_id_first_nonempty_persists` on concrete turns. -/
theorem session_id_first_nonempty_persists_spot :
    (chatState0.sessionId = none ∧ jsTrim "hi" ≠ "" ∧ chatState0.isLoading = false ∧
      (sendMessage testParse chatState0 "hi" 0
          (FetchResult.body ["data: sidEmpty", "data: sidAbc"] false)).1.sessionId
        = firstTruthySid testParse ["data: sidEmpty", "data: sidAbc"]) ∧
    (({ chatState0 with sessionId := some "abc" } : ChatState).sessionId = some "abc" ∧
      ("abc" : String) ≠ "" ∧
      (runTurns testParse { chatState0 with sessionId := some "abc" }
          [("again", 7, FetchResult.body ["data: tHello"] false)]).1.sessionId = some "abc" ∧
      ∀ r ∈ (runTurns testParse { chatState0 with sessionId := some "abc" }
          [("again", 7, FetchResult.body ["data: tHello"] false)]).2,
        r.session_id = some "abc") :=
  ⟨⟨rfl, by decide, rfl,
    (session_id_first_nonempty_persists testParse chatState0 "hi" 0
      ["data: sidEmpty", "data: sidAbc"] false [] "x").1 rfl (by decide) rfl⟩,
   ⟨rfl, by decide,
    (session_id_first_nonempty_persists testParse
      { chatState0 with sessionId := some "abc" } "u" 0 [] false
      [("again", 7, FetchResult.body ["data: tHello"] false)] "abc").2 rfl (by decide)⟩⟩

/-- C9 (amended): the callback form submits a call request if and only if
the phone number with whitespace removed has length between 6 and 15;
otherwise it sets the error status without any network call; and the phone
number field only ever contains digit and whitespace characters. -/
theorem callback_submit_validation (st : CallbackFormState)
    (sessionId : Option String) (outcome : CallOutcome) :
    (((handleSubmit st sessionId outcome).2).isSome = true ↔
      (6 ≤ (cleanNumber st.phoneNumber).length ∧
        (cleanNumber st.phoneNumber).length ≤ 15)) ∧
    ((cleanNumber st.phoneNumber).length < 6 ∨ (cleanNumber st.phoneNumber).length > 15 →
      handleSubmit st sessionId outcome =
        ({ st with errorMessage := "Please enter a valid phone number",
                   status := FormStatus.error }, none)) ∧
    (∀ raw : String, ∀ c ∈ (sanitizePhoneInput raw).data,
      c.isDigit = true ∨ isJsSpace c = true) := by
  refine ⟨?_, ?_, ?_⟩
  · by_cases hv : (cleanNumber st.phoneNumber).length < 6 ∨
        (cleanNumber st.phoneNumber).length > 15
    · unfold handleSubmit
      rw [if_pos hv]
      simp
      omega
    · unfold handleSubmit
      rw [if_neg hv]
      cases outcome <;> simp <;> omega
  · intro hv
    unfold handleSubmit
    rw [if_pos hv]
  · intro raw c hc
    have hmem : c ∈ raw.data ∧ (c.isDigit = true ∨ isJsSpace c = true) := by
      simpa [sanitizePhoneInput] using hc
    exact hmem.2

/-- C9 fails as frozen: the phone field sanitizer keeps every whitespace
character, so a pasted tab survives although it is neither a digit nor a
space. -/
theorem callback_phone_field_counterexample :
    '\t' ∈ (sanitizePhoneInput "12\t34567").data ∧
    ¬('\t'.isDigit = true ∨ '\t' = ' ') := by
  refine ⟨by decide, by decide⟩

/-- Spot check of `callback_submit_validation` on concrete form states. -/
theorem callback_submit_validation_spot :
    (((handleSubmit ⟨⟨"+44", "en"⟩, "7911 123456", FormStatus.idle, ""⟩ none
        CallOutcome.ok).2).isSome = true ↔
      (6 ≤ (cleanNumber "7911 123456").length ∧
        (cleanNumber "7911 123456").length ≤ 15)) ∧
    ((cleanNumber "123").length < 6 ∨ (cleanNumber "123").length > 15) ∧
    (handleSubmit ⟨⟨"+44", "en"⟩, "123", FormStatus.idle, ""⟩ none CallOutcome.ok =
      ({ (⟨⟨"+44", "en"⟩, "123", FormStatus.idle, ""⟩ : CallbackFormState) with
          errorMessage := "Please enter a valid phone number",
          status := FormStatus.error }, none)) ∧
    ('7' ∈ (sanitizePhoneInput "7x9").data →
      ('7'.isDigit = true ∨ isJsSpace '7' = true)) :=
  ⟨(callback_submit_validation ⟨⟨"+44", "en"⟩, "7911 123456", FormStatus.idle, ""⟩
      none CallOutcome.ok).1,
   Or.inl (by decide),
   (callback_submit_validation ⟨⟨"+44", "en"⟩, "123", FormStatus.idle, ""⟩
      none CallOutcome.ok).2.1 (Or.inl (by decide)),
   fun h => (callback_submit_validation ⟨⟨"+44", "en"⟩, "7x9", FormStatus.idle, ""⟩
      none CallOutcome.ok).2.2 "7x9" '7' h⟩

/-- C10: an empty or whitespace-only transcript makes `processAudio` issue
no chat request, append no message, set the user-facing error, and clear the
processing flag, leaving the rest of the state untouched. -/
theorem voice_empty_transcript_no_chat (st : VoiceState) (t : String)
    (co : ChatCallOutcome) (synthOk : Bool) (now : Nat)
    (h : jsTrim t = "") :
    processAudio st (TranscribeOutcome.ok t) co synthOk now =
      ({ st with error := some "Could not understand audio. Please try again.",
                 isProcessing := false }, none) := by
  simp [processAudio, h]

/-- Spot check of `voice_empty_transcript_no_chat` on a whitespace-only
transcript. -/
theorem voice_empty_transcript_no_chat_spot :
    jsTrim "  " = "" ∧
    processAudio voiceState0 (TranscribeOutcome.ok "  ")
        (ChatCallOutcome.ok "resp" "sid") true 3 =
      ({ voiceState0 with
          error := some "Could not understand audio. Please try again.",
          isProcessing := false }, none) :=
  ⟨by decide,
    voice_empty_transcript_no_chat voiceState0 "  "
      (ChatCallOutcome.ok "resp" "sid") true 3 (by decide)⟩

end NissanChatbot
